import Mathlib

/-!
Shallow embedding of the trading-bot order pipeline:
`src/bot/validators.py`, `src/trading_bot/bot/orders.py` and
`src/trading_bot/bot/client.py`.

Pure Python string manipulation and `decimal.Decimal` arithmetic are
embedded directly (a `Decimal` is modelled by its sign/coefficient/exponent
triple, exactly as in `Decimal.as_tuple()`, plus the NaN and Infinity
specials).  I/O effects that the validated claims do not observe
(logging, printing the request summary) are dropped; the HTTP transport is
an oracle parameter that ranges over every outcome the `httpx` layer can
produce, and exceptions are modelled by an explicit `Except` result.
-/

/-- ASCII whitespace stripped by Python str.strip: space, tab, LF, VT, FF, CR.
(Unicode whitespace beyond ASCII is outside the model.) -/
def isPyWs (c : Char) : Bool :=
  c = ' ' || c = '\t' || c = '\n' || c = '\r' || c = Char.ofNat 11 || c = Char.ofNat 12

/-- str.strip on a character list. -/
def pyStripList (cs : List Char) : List Char :=
  ((cs.dropWhile isPyWs).reverse.dropWhile isPyWs).reverse

/-- Python str.strip (ASCII fragment). -/
def pyStrip (s : String) : String :=
  ⟨pyStripList s.data⟩

/-- Python str.upper on one character (ASCII fragment). -/
def pyUpperChar (c : Char) : Char :=
  if 'a' ≤ c && c ≤ 'z' then Char.ofNat (c.toNat - 32) else c

/-- Python str.upper (ASCII fragment). -/
def pyUpper (s : String) : String :=
  ⟨s.data.map pyUpperChar⟩

/-- Lower-casing used while recognizing the Infinity/NaN spellings accepted by
the Decimal constructor. -/
def pyLowerChar (c : Char) : Char :=
  if 'A' ≤ c && c ≤ 'Z' then Char.ofNat (c.toNat + 32) else c

/-- Python decimal.Decimal, as the (sign, coefficient, exponent) triple of
`as_tuple()` (the coefficient is the digit string read as a Nat, so leading
zeros are dropped exactly as the constructor does), plus the specials.
Signaling and quiet NaNs behave identically in the code under study
(any ordered comparison raises InvalidOperation), so both map to `nan`;
NaN diagnostic payloads are likewise dropped. -/
inductive PyDec where
  | fin (sign : Bool) (coeff : Nat) (exp : Int)
  | nan
  | inf (sign : Bool)
deriving DecidableEq

/-- Digits to Nat. -/
def natOfDigits (ds : List Char) : Nat :=
  ds.foldl (fun a c => a * 10 + (c.toNat - 48)) 0

/-- Optional sign prefix of a decimal numeric string. -/
def parseSigned (cs : List Char) : Bool × List Char :=
  match cs with
  | '+' :: r => (false, r)
  | '-' :: r => (true, r)
  | _ => (false, cs)

/-- Exponent part after the e/E marker: optional sign then one or more digits,
consuming the whole remainder. -/
def parseExp (cs : List Char) : Option Int :=
  match cs with
  | [] => none
  | c :: rest =>
    let p := if c = '+' then (false, rest)
      else if c = '-' then (true, rest)
      else (false, c :: rest)
    if p.2 ≠ [] && p.2.all Char.isDigit then
      some (if p.1 then -(natOfDigits p.2 : Int) else (natOfDigits p.2 : Int))
    else none

/-- Mantissa `digits [ . digits ]` with at least one digit overall; returns
(integer digits, fraction digits, unconsumed remainder). -/
def parseMantissa (cs : List Char) : Option (List Char × List Char × List Char) :=
  let ip := cs.takeWhile Char.isDigit
  let r1 := cs.dropWhile Char.isDigit
  match r1 with
  | '.' :: r2 =>
    let fp := r2.takeWhile Char.isDigit
    let r3 := r2.dropWhile Char.isDigit
    if ip = [] && fp = [] then none else some (ip, fp, r3)
  | _ => if ip = [] then none else some (ip, [], r1)

/-- Numeric (non-special) body of a decimal numeric string, after the sign. -/
def parseNumericBody (sign : Bool) (cs : List Char) : Option PyDec :=
  match parseMantissa cs with
  | none => none
  | some (ip, fp, rest) =>
    match rest with
    | [] => some (PyDec.fin sign (natOfDigits (ip ++ fp)) (-(fp.length : Int)))
    | e :: rest2 =>
      if e = 'e' || e = 'E' then
        match parseExp rest2 with
        | some ex => some (PyDec.fin sign (natOfDigits (ip ++ fp)) (ex - fp.length))
        | none => none
      else none

/-- The decimal.Decimal string constructor: strips surrounding whitespace,
removes underscores, then parses sign, Infinity/NaN spellings, or a numeric
string with optional exponent.  `none` models the constructor raising
decimal.InvalidOperation. -/
def parsePyDec (s : String) : Option PyDec :=
  let cs := (pyStripList s.data).filter (fun c => c ≠ '_')
  let sb := parseSigned cs
  let low := sb.2.map pyLowerChar
  if low = "inf".data || low = "infinity".data then some (PyDec.inf sb.1)
  else if low.take 3 = "nan".data && (low.drop 3).all Char.isDigit then some PyDec.nan
  else if low.take 4 = "snan".data && (low.drop 4).all Char.isDigit then some PyDec.nan
  else parseNumericBody sb.1 sb.2

/-- Exact rational value of a finite Decimal. -/
def finVal (sign : Bool) (c : Nat) (e : Int) : Rat :=
  let mag : Rat :=
    if 0 ≤ e then mkRat ((c : Int) * ((10 ^ e.toNat : Nat) : Int)) 1
    else mkRat (c : Int) (10 ^ (-e).toNat)
  if sign then -mag else mag

/-- Python `d <= 0` on a Decimal: `none` models the comparison raising
decimal.InvalidOperation (NaN operand). -/
def cmpLE0 : PyDec → Option Bool
  | PyDec.fin s c e => some (decide (finVal s c e ≤ 0))
  | PyDec.inf s => some s
  | PyDec.nan => none

/-- Python `d < Decimal("0.00001")` (the minimum-quantity comparison of
validate_quantity, against the Decimal with coefficient 1 and exponent -5):
`none` models InvalidOperation. -/
def cmpLTmin : PyDec → Option Bool
  | PyDec.fin s c e => some (decide (finVal s c e < finVal false 1 (-5)))
  | PyDec.inf s => some s
  | PyDec.nan => none

/-- Digit body of str(Decimal) for a finite value: the to-scientific-string
algorithm of the General Decimal Arithmetic specification, as CPython
implements it. -/
def decStrBody (c : Nat) (e : Int) : String :=
  let ds := toString c
  let len : Int := (ds.length : Int)
  let adjusted := e + len - 1
  if e ≤ 0 && -6 ≤ adjusted then
    if e = 0 then ds
    else if 0 ≤ adjusted then
      let k := (len + e).toNat
      ⟨ds.data.take k⟩ ++ "." ++ ⟨ds.data.drop k⟩
    else
      "0." ++ ⟨List.replicate (-(adjusted + 1)).toNat '0'⟩ ++ ds
  else
    let head : String := ⟨ds.data.take 1⟩
    let tail : String := ⟨ds.data.drop 1⟩
    (if tail = "" then head else head ++ "." ++ tail)
      ++ "E" ++ (if 0 ≤ adjusted then "+" else "") ++ toString adjusted

/-- Python str(Decimal). -/
def decStr : PyDec → String
  | PyDec.fin sign c e => (if sign then "-" else "") ++ decStrBody c e
  | PyDec.nan => "NaN"
  | PyDec.inf false => "Infinity"
  | PyDec.inf true => "-Infinity"

/-- OrderSide enum of validators.py. -/
inductive OrderSide where
  | BUY
  | SELL
deriving DecidableEq

/-- OrderType enum of validators.py. -/
inductive OrderType where
  | MARKET
  | LIMIT
  | STOP
  | STOP_MARKET
  | TAKE_PROFIT
  | TAKE_PROFIT_MARKET
deriving DecidableEq

/-- TimeInForce enum of validators.py. -/
inductive TimeInForce where
  | GTC
  | IOC
  | FOK
  | GTX
deriving DecidableEq

/-- OrderParams dataclass of validators.py. -/
structure OrderParams where
  symbol : String
  side : OrderSide
  order_type : OrderType
  quantity : PyDec
  price : Option PyDec := none
  stop_price : Option PyDec := none
  time_in_force : Option TimeInForce := none
deriving DecidableEq

/-- The distinct ValidationError messages raised in validators.py, one
constructor per raise site, carrying exactly the data the message
interpolates. -/
inductive VError where
  | symbolEmpty
  | symbolInvalidFormat (sym : String)
  | sideEmpty
  | sideInvalid (side : String)
  | typeEmpty
  | typeInvalid (t : String)
  | quantityEmpty
  | quantityInvalidFormat (raw : String)
  | quantityNotPositive (q : PyDec)
  | quantityTooSmall (q : PyDec)
  | priceRequiredForLimit
  | priceInvalidFormat (raw : String)
  | priceNotPositive (p : PyDec)
  | stopPriceInvalidFormat (raw : String)
  | stopPriceNotPositive (p : PyDec)
  | tifInvalid (t : String)
deriving DecidableEq

/-- The exact message string of each ValidationError raise in validators.py. -/
def vmsg : VError → String
  | VError.symbolEmpty => "Symbol cannot be empty"
  | VError.symbolInvalidFormat sym =>
      "Invalid symbol format: \x27" ++ sym ++ "\x27. Symbol should be 5-12 uppercase letters (e.g., BTCUSDT)"
  | VError.sideEmpty => "Order side cannot be empty"
  | VError.sideInvalid s => "Invalid order side: \x27" ++ s ++ "\x27. Must be BUY or SELL"
  | VError.typeEmpty => "Order type cannot be empty"
  | VError.typeInvalid t =>
      "Invalid order type: \x27" ++ t ++ "\x27. Valid types: MARKET, LIMIT, STOP, STOP_MARKET, TAKE_PROFIT, TAKE_PROFIT_MARKET"
  | VError.quantityEmpty => "Quantity cannot be empty"
  | VError.quantityInvalidFormat raw => "Invalid quantity format: \x27" ++ raw ++ "\x27"
  | VError.quantityNotPositive q => "Quantity must be positive, got: " ++ decStr q
  | VError.quantityTooSmall q => "Quantity too small: " ++ decStr q
  | VError.priceRequiredForLimit => "Price is required for LIMIT orders"
  | VError.priceInvalidFormat raw => "Invalid price format: \x27" ++ raw ++ "\x27"
  | VError.priceNotPositive p => "Price must be positive, got: " ++ decStr p
  | VError.stopPriceInvalidFormat raw => "Invalid stop price format: \x27" ++ raw ++ "\x27"
  | VError.stopPriceNotPositive p => "Stop price must be positive, got: " ++ decStr p
  | VError.tifInvalid t => "Invalid time in force: \x27" ++ t ++ "\x27. Valid values: GTC, IOC, FOK, GTX"

/-- An exception escaping a validator: either a ValidationError, or the
decimal.InvalidOperation that a `<=`-comparison against a NaN Decimal raises
(the validators only wrap the Decimal constructor in try/except, so that one
escapes uncaught). -/
inductive VExc where
  | validation (v : VError)
  | invalidOp
deriving DecidableEq

/-- Python truthiness of an Optional[str]: None and the empty string are
falsy. -/
def strOptFalsy : Option String → Bool
  | none => true
  | some s => s = ""

/-- The regex `^[A-Z]{5,12}$` of validate_symbol as a predicate (the pattern
is applied to the stripped string, so the before-final-newline semantics of
`$` cannot add matches). -/
def symbolFormatOk (s : String) : Bool :=
  5 ≤ s.length && s.length ≤ 12 && s.data.all (fun c => 'A' ≤ c && c ≤ 'Z')

/-- validate_symbol of validators.py.  The USDT/BUSD-suffix check only emits a
logger warning and never fails, so it does not appear in the result. -/
def validate_symbol (symbol : String) : Except VExc String :=
  if symbol = "" then Except.error (VExc.validation VError.symbolEmpty)
  else
    let s := pyStrip (pyUpper symbol)
    if symbolFormatOk s then Except.ok s
    else Except.error (VExc.validation (VError.symbolInvalidFormat s))

/-- OrderSide(value) lookup by enum value. -/
def sideOfString (s : String) : Option OrderSide :=
  if s = "BUY" then some OrderSide.BUY
  else if s = "SELL" then some OrderSide.SELL
  else none

/-- validate_side of validators.py. -/
def validate_side (side : String) : Except VExc OrderSide :=
  if side = "" then Except.error (VExc.validation VError.sideEmpty)
  else
    let s := pyStrip (pyUpper side)
    match sideOfString s with
    | some v => Except.ok v
    | none => Except.error (VExc.validation (VError.sideInvalid s))

/-- OrderType(value) lookup by enum value. -/
def typeOfString (s : String) : Option OrderType :=
  if s = "MARKET" then some OrderType.MARKET
  else if s = "LIMIT" then some OrderType.LIMIT
  else if s = "STOP" then some OrderType.STOP
  else if s = "STOP_MARKET" then some OrderType.STOP_MARKET
  else if s = "TAKE_PROFIT" then some OrderType.TAKE_PROFIT
  else if s = "TAKE_PROFIT_MARKET" then some OrderType.TAKE_PROFIT_MARKET
  else none

/-- validate_order_type of validators.py. -/
def validate_order_type (order_type : String) : Except VExc OrderType :=
  if order_type = "" then Except.error (VExc.validation VError.typeEmpty)
  else
    let s := pyStrip (pyUpper order_type)
    match typeOfString s with
    | some v => Except.ok v
    | none => Except.error (VExc.validation (VError.typeInvalid s))

/-- validate_quantity of validators.py.  Only the Decimal constructor is
inside the try/except, so a NaN quantity makes the subsequent `qty <= 0`
comparison raise decimal.InvalidOperation, modelled by `VExc.invalidOp`. -/
def validate_quantity (quantity : String) : Except VExc PyDec :=
  if quantity = "" then Except.error (VExc.validation VError.quantityEmpty)
  else
    match parsePyDec (pyStrip quantity) with
    | none => Except.error (VExc.validation (VError.quantityInvalidFormat quantity))
    | some q =>
      match cmpLE0 q with
      | none => Except.error VExc.invalidOp
      | some true => Except.error (VExc.validation (VError.quantityNotPositive q))
      | some false =>
        match cmpLTmin q with
        | none => Except.error VExc.invalidOp
        | some true => Except.error (VExc.validation (VError.quantityTooSmall q))
        | some false => Except.ok q

/-- validate_price of validators.py.  A price supplied for a MARKET order only
logs a warning and is dropped. -/
def validate_price (price : Option String) (order_type : OrderType) : Except VExc (Option PyDec) :=
  if order_type = OrderType.LIMIT && strOptFalsy price then
    Except.error (VExc.validation VError.priceRequiredForLimit)
  else if order_type = OrderType.MARKET then
    Except.ok none
  else if strOptFalsy price then
    Except.ok none
  else
    match price with
    | none => Except.ok none
    | some s =>
      match parsePyDec (pyStrip s) with
      | none => Except.error (VExc.validation (VError.priceInvalidFormat s))
      | some p =>
        match cmpLE0 p with
        | none => Except.error VExc.invalidOp
        | some true => Except.error (VExc.validation (VError.priceNotPositive p))
        | some false => Except.ok (some p)

/-- validate_stop_price of validators.py. -/
def validate_stop_price (stop_price : Option String) : Except VExc (Option PyDec) :=
  if strOptFalsy stop_price then Except.ok none
  else
    match stop_price with
    | none => Except.ok none
    | some s =>
      match parsePyDec (pyStrip s) with
      | none => Except.error (VExc.validation (VError.stopPriceInvalidFormat s))
      | some p =>
        match cmpLE0 p with
        | none => Except.error VExc.invalidOp
        | some true => Except.error (VExc.validation (VError.stopPriceNotPositive p))
        | some false => Except.ok (some p)

/-- TimeInForce(value) lookup by enum value. -/
def tifOfString (s : String) : Option TimeInForce :=
  if s = "GTC" then some TimeInForce.GTC
  else if s = "IOC" then some TimeInForce.IOC
  else if s = "FOK" then some TimeInForce.FOK
  else if s = "GTX" then some TimeInForce.GTX
  else none

/-- validate_time_in_force of validators.py. -/
def validate_time_in_force (tif : Option String) (order_type : OrderType) :
    Except VExc (Option TimeInForce) :=
  if order_type = OrderType.MARKET then Except.ok none
  else if strOptFalsy tif && order_type = OrderType.LIMIT then Except.ok (some TimeInForce.GTC)
  else if strOptFalsy tif then Except.ok none
  else
    match tif with
    | none => Except.ok none
    | some s =>
      let t := pyStrip (pyUpper s)
      match tifOfString t with
      | some v => Except.ok (some v)
      | none => Except.error (VExc.validation (VError.tifInvalid t))

/-- validate_order_params of validators.py: the seven field validators run
sequentially and the first exception propagates (Except.bind). -/
def validate_order_params (symbol side order_type quantity : String)
    (price stop_price time_in_force : Option String) : Except VExc OrderParams :=
  Except.bind (validate_symbol symbol) fun validated_symbol =>
  Except.bind (validate_side side) fun validated_side =>
  Except.bind (validate_order_type order_type) fun validated_type =>
  Except.bind (validate_quantity quantity) fun validated_qty =>
  Except.bind (validate_price price validated_type) fun validated_price =>
  Except.bind (validate_stop_price stop_price) fun validated_stop =>
  Except.bind (validate_time_in_force time_in_force validated_type) fun validated_tif =>
  Except.ok
    { symbol := validated_symbol
      side := validated_side
      order_type := validated_type
      quantity := validated_qty
      price := validated_price
      stop_price := validated_stop
      time_in_force := validated_tif }

deriving instance DecidableEq for Except

/-- A JSON scalar value as the client observes it (the Binance payload fields
read by the pipeline are all scalars; nested arrays/objects are not consumed
by any code path under study). -/
inductive JVal where
  | null
  | bool (b : Bool)
  | intNum (n : Int)
  | str (s : String)
deriving DecidableEq

/-- A parsed JSON object (Python dict with unique keys). -/
abbrev JObj := List (String × JVal)

/-- dict.get k (returning None when missing). -/
def jGet (o : JObj) (k : String) : Option JVal :=
  match o.find? (fun p => p.1 == k) with
  | some p => some p.2
  | none => none

/-- Python str() of a scalar, as an f-string interpolates it. -/
def pyFmt : JVal → String
  | JVal.null => "None"
  | JVal.bool true => "True"
  | JVal.bool false => "False"
  | JVal.intNum n => toString n
  | JVal.str s => s

/-- An exception as seen at the orders.py layer: the Binance client hierarchy
of client.py (BinanceAPIError, BinanceNetworkError and BinanceAuthError all
subclass BinanceClientError), plus the non-Binance exceptions the code can
raise (ValidationError, decimal.InvalidOperation, ValueError,
json.JSONDecodeError) and a catch-all for anything else Exception-derived.
BaseException interrupts (KeyboardInterrupt/SystemExit) are outside the
model, as in spec section 5. -/
inductive Exc where
  | validationError (v : VError)
  | invalidOperation
  | binanceAPIError (msg : String) (status_code : Option Nat) (error_code : Option JVal)
  | binanceNetworkError (msg : String)
  | binanceAuthError (msg : String)
  | binanceClientError (msg : String)
  | valueError (msg : String)
  | jsonDecodeError (msg : String)
  | otherError (msg : String)
deriving DecidableEq

/-- isinstance(e, ValidationError). -/
def isValidationError : Exc → Bool
  | Exc.validationError _ => true
  | _ => false

/-- isinstance(e, BinanceAPIError). -/
def isBinanceAPIError : Exc → Bool
  | Exc.binanceAPIError _ _ _ => true
  | _ => false

/-- isinstance(e, BinanceClientError): the whole client.py hierarchy. -/
def isBinanceClientError : Exc → Bool
  | Exc.binanceAPIError _ _ _ => true
  | Exc.binanceNetworkError _ => true
  | Exc.binanceAuthError _ => true
  | Exc.binanceClientError _ => true
  | _ => false

/-- Python str(e) of an exception.  BinanceClientError.__init__ stores the
message passed at the raise site, so str(e) is that message; the
InvalidOperation raised by a Decimal comparison carries the signal class
list. -/
def excMsg : Exc → String
  | Exc.validationError v => vmsg v
  | Exc.invalidOperation => "[<class \x27decimal.InvalidOperation\x27>]"
  | Exc.binanceAPIError m _ _ => m
  | Exc.binanceNetworkError m => m
  | Exc.binanceAuthError m => m
  | Exc.binanceClientError m => m
  | Exc.valueError m => m
  | Exc.jsonDecodeError m => m
  | Exc.otherError m => m

/-- Outcome of one HTTP dispatch as httpx presents it to _make_request:
a timeout, a connectivity failure, or a response with a status code whose
body either parses as a JSON object (`Except.ok`) or does not
(`Except.error m` carries str() of the json.JSONDecodeError that
response.json() raises). -/
inductive HttpOutcome where
  | timeout (msg : String)
  | connectError (msg : String)
  | response (status : Nat) (body : Except String JObj)
deriving DecidableEq

/-- BinanceFuturesClient._make_request of client.py, with the HTTP exchange
abstracted by the `outcome` oracle.  Signing only adds timestamp/signature
parameters and logging is effect-free, so neither influences the returned
classification.  The httpx.HTTPStatusError handler is dead code (the client
never calls raise_for_status), hence no corresponding outcome. -/
def make_request (method : String) (outcome : HttpOutcome) : Except Exc JObj :=
  if method == "GET" || method == "POST" || method == "DELETE" then
    match outcome with
    | HttpOutcome.timeout m => Except.error (Exc.binanceNetworkError ("Request timed out: " ++ m))
    | HttpOutcome.connectError m => Except.error (Exc.binanceNetworkError ("Network error: " ++ m))
    | HttpOutcome.response status body =>
      match body with
      | Except.error m => Except.error (Exc.jsonDecodeError m)
      | Except.ok data =>
        if 400 ≤ status then
          Except.error (Exc.binanceAPIError
            ("Binance API error: [" ++ pyFmt ((jGet data "code").getD (JVal.intNum (-1)))
              ++ "] " ++ pyFmt ((jGet data "msg").getD (JVal.str "Unknown error")))
            (some status)
            (some ((jGet data "code").getD (JVal.intNum (-1)))))
        else Except.ok data
  else Except.error (Exc.valueError ("Unsupported HTTP method: " ++ method))

/-- OrderResult dataclass of orders.py.  The success path assigns raw
response.get values to the fields, so they are modelled as the JSON scalars
actually stored. -/
structure OrderResult where
  success : Bool
  order_id : Option JVal := none
  client_order_id : Option JVal := none
  symbol : Option JVal := none
  side : Option JVal := none
  order_type : Option JVal := none
  status : Option JVal := none
  quantity : Option JVal := none
  executed_qty : Option JVal := none
  price : Option JVal := none
  avg_price : Option JVal := none
  time_in_force : Option JVal := none
  error_message : Option String := none
  raw_response : Option JObj := none
deriving DecidableEq

/-- The failure OrderResult built at each except-branch of place_order. -/
def failureResult (msg : String) : OrderResult :=
  { success := false, error_message := some msg }

/-- The success OrderResult built from the exchange response in place_order. -/
def mkSuccessResult (response : JObj) : OrderResult :=
  { success := true
    order_id := jGet response "orderId"
    client_order_id := jGet response "clientOrderId"
    symbol := jGet response "symbol"
    side := jGet response "side"
    order_type := jGet response "type"
    status := jGet response "status"
    quantity := jGet response "origQty"
    executed_qty := jGet response "executedQty"
    price := jGet response "price"
    avg_price := jGet response "avgPrice"
    time_in_force := jGet response "timeInForce"
    raw_response := some response }

/-- Inclusion of validator-raised exceptions into the orders-layer exception
type. -/
def excOfV : VExc → Exc
  | VExc.validation v => Exc.validationError v
  | VExc.invalidOp => Exc.invalidOperation

/-- The except-chain of place_order, in the source order
ValidationError, BinanceAPIError, BinanceClientError, Exception. -/
def excToFailure (e : Exc) : OrderResult :=
  match e with
  | Exc.validationError v => failureResult ("Validation error: " ++ vmsg v)
  | ex =>
    if isBinanceAPIError ex then failureResult ("Binance API error: " ++ excMsg ex)
    else if isBinanceClientError ex then failureResult ("Client error: " ++ excMsg ex)
    else failureResult ("Unexpected error: " ++ excMsg ex)

/-- place_order of orders.py.  `transport` is the outcome of the
client.place_order call (a signed POST through _make_request); the returned
Nat counts how many times that transport call was issued.  The function is
total: every path yields an OrderResult, mirroring the try/except that lets
no Exception escape. -/
def place_order (symbol side order_type quantity : String)
    (price stop_price time_in_force : Option String)
    (transport : Except Exc JObj) : OrderResult × Nat :=
  match validate_order_params symbol side order_type quantity price stop_price time_in_force with
  | Except.error ve => (excToFailure (excOfV ve), 0)
  | Except.ok _params =>
    match transport with
    | Except.ok response => (mkSuccessResult response, 1)
    | Except.error e => (excToFailure e, 1)

/-- Python truthiness of an Optional[int] (None and 0 are falsy, exactly the
`not order_id` test in client.py). -/
def intOptFalsy : Option Int → Bool
  | none => true
  | some n => n == 0

/-- BinanceFuturesClient.cancel_order of client.py: raises ValueError before
any transport call when both identifiers are falsy, otherwise issues one
signed DELETE through _make_request (the `transport` oracle).  The Nat counts
transport calls. -/
def client_cancel_order (order_id : Option Int) (client_order_id : Option String)
    (transport : Except Exc JObj) : Except Exc JObj × Nat :=
  if intOptFalsy order_id && strOptFalsy client_order_id then
    (Except.error (Exc.valueError "Either order_id or client_order_id must be provided"), 0)
  else
    (transport, 1)

/-- The cancel-result dict of orders.cancel_order. -/
inductive CancelResult where
  | ok (response : JObj)
  | failed (error : String)
deriving DecidableEq

/-- cancel_order of orders.py: wraps the client call but catches only
BinanceClientError, so any other exception (the ValueError in particular)
propagates to the caller, modelled by an `Except.error` overall result. -/
def cancel_order (order_id : Option Int) (client_order_id : Option String)
    (transport : Except Exc JObj) : Except Exc CancelResult × Nat :=
  match client_cancel_order order_id client_order_id transport with
  | (Except.ok response, n) => (Except.ok (CancelResult.ok response), n)
  | (Except.error e, n) =>
    if isBinanceClientError e then (Except.ok (CancelResult.failed (excMsg e)), n)
    else (Except.error e, n)

/-- Decimal(value) applied to the Python value a JSON scalar decodes to
(bool is an int in Python, so Decimal(True) is 1; Decimal(None) raises
TypeError, modelled by `none`). -/
def decimalOfJVal : JVal → Option PyDec
  | JVal.str s => parsePyDec s
  | JVal.intNum n => some (PyDec.fin (decide (n < 0)) n.natAbs 0)
  | JVal.bool b => some (PyDec.fin false (if b then 1 else 0) 0)
  | JVal.null => none

/-- get_current_price of orders.py.  `outcome` is the result of the
client.get_ticker_price call (an unsigned GET through _make_request); the
surrounding try/except Exception maps every failure, including a malformed
price field, to None. -/
def get_current_price (outcome : Except Exc JObj) : Option PyDec :=
  match outcome with
  | Except.error _ => none
  | Except.ok ticker =>
    match decimalOfJVal ((jGet ticker "price").getD (JVal.str "0")) with
    | some price => some price
    | none => none

/-- Bind on an error propagates the error unchanged. -/
theorem except_bind_error {ε α β : Type} (e : ε) (f : α → Except ε β) :
    Except.bind (Except.error e) f = Except.error e := rfl

/-- Bind on a success applies the continuation. -/
theorem except_bind_ok {ε α β : Type} (a : α) (f : α → Except ε β) :
    Except.bind (Except.ok a) f = f a := rfl

/-- validate_price returns None for MARKET orders whatever the price string. -/
theorem validate_price_market (price : Option String) :
    validate_price price OrderType.MARKET = Except.ok none := by
  simp [validate_price]

/-- validate_time_in_force returns None for MARKET orders whatever the tif
string. -/
theorem validate_tif_market (tif : Option String) :
    validate_time_in_force tif OrderType.MARKET = Except.ok none := by
  simp [validate_time_in_force]

/-- A failing OrderResult has success = false. -/
theorem excToFailure_success_false (e : Exc) : (excToFailure e).success = false := by
  cases e <;>
    simp [excToFailure, failureResult, isBinanceAPIError, isBinanceClientError]

/-- The BinanceAPIError except-branch of place_order. -/
theorem excToFailure_api (e : Exc) (h : isBinanceAPIError e = true) :
    excToFailure e = failureResult ("Binance API error: " ++ excMsg e) := by
  cases e <;> simp_all [excToFailure, isBinanceAPIError]

/-- The BinanceClientError except-branch of place_order (a non-API client
error: network, auth, or the bare base class). -/
theorem excToFailure_client (e : Exc) (h1 : isBinanceAPIError e = false)
    (h2 : isBinanceClientError e = true) :
    excToFailure e = failureResult ("Client error: " ++ excMsg e) := by
  cases e <;> simp_all [excToFailure, isBinanceAPIError, isBinanceClientError]

/-- The defensive catch-all except-branch of place_order. -/
theorem excToFailure_unexpected (e : Exc) (h1 : isValidationError e = false)
    (h2 : isBinanceClientError e = false) :
    excToFailure e = failureResult ("Unexpected error: " ++ excMsg e) := by
  cases e <;>
    simp_all [excToFailure, isValidationError, isBinanceAPIError, isBinanceClientError]

/-- C4.  For every input whose orderType validates to MARKET, the resulting
OrderParams has price = None and time_in_force = None, and no supplied price
or timeInForce string can make validate_price or validate_time_in_force fail
for a MARKET order (both always succeed with None). -/
theorem market_order_price_tif_none :
    (∀ price, validate_price price OrderType.MARKET = Except.ok none)
  ∧ (∀ tif, validate_time_in_force tif OrderType.MARKET = Except.ok none)
  ∧ (∀ symbol side order_type quantity price stop_price tif params,
      validate_order_params symbol side order_type quantity price stop_price tif
        = Except.ok params →
      params.order_type = OrderType.MARKET →
      params.price = none ∧ params.time_in_force = none) := by
  refine ⟨validate_price_market, validate_tif_market, ?_⟩
  intro symbol side order_type quantity price stop_price tif params h hmkt
  unfold validate_order_params at h
  cases h1 : validate_symbol symbol with
  | error e => rw [h1, except_bind_error] at h; cases h
  | ok vs =>
  rw [h1, except_bind_ok] at h
  cases h2 : validate_side side with
  | error e => rw [h2, except_bind_error] at h; cases h
  | ok vsd =>
  rw [h2, except_bind_ok] at h
  cases h3 : validate_order_type order_type with
  | error e => rw [h3, except_bind_error] at h; cases h
  | ok vt =>
  rw [h3, except_bind_ok] at h
  cases h4 : validate_quantity quantity with
  | error e => rw [h4, except_bind_error] at h; cases h
  | ok vq =>
  rw [h4, except_bind_ok] at h
  cases h5 : validate_price price vt with
  | error e => rw [h5, except_bind_error] at h; cases h
  | ok vp =>
  rw [h5, except_bind_ok] at h
  cases h6 : validate_stop_price stop_price with
  | error e => rw [h6, except_bind_error] at h; cases h
  | ok vsp =>
  rw [h6, except_bind_ok] at h
  cases h7 : validate_time_in_force tif vt with
  | error e => rw [h7, except_bind_error] at h; cases h
  | ok vtf =>
  rw [h7, except_bind_ok] at h
  cases h
  have hvt : vt = OrderType.MARKET := hmkt
  subst hvt
  rw [validate_price_market] at h5
  rw [validate_tif_market] at h7
  cases h5
  cases h7
  exact ⟨rfl, rfl⟩

/-- C4 witness: end-to-end scenario 1 with a price and a timeInForce
supplied anyway; both are dropped, not rejected. -/
theorem market_order_price_tif_none_witness :
    validate_order_params "btcusdt" "buy" "market" "0.001" (some "99999") none (some "ioc")
      = Except.ok
          { symbol := "BTCUSDT", side := OrderSide.BUY, order_type := OrderType.MARKET,
            quantity := PyDec.fin false 1 (-3) }
  ∧ ({ symbol := "BTCUSDT", side := OrderSide.BUY, order_type := OrderType.MARKET,
       quantity := PyDec.fin false 1 (-3) } : OrderParams).price = none
  ∧ ({ symbol := "BTCUSDT", side := OrderSide.BUY, order_type := OrderType.MARKET,
       quantity := PyDec.fin false 1 (-3) } : OrderParams).time_in_force = none :=
  ⟨by decide,
   market_order_price_tif_none.2.2 "btcusdt" "buy" "market" "0.001" (some "99999") none
     (some "ioc") _ (by decide) rfl⟩

/-- C5.  For LIMIT orders: an absent (None or empty) price fails with the
missing-required-field error; a price parsing to a positive finite Decimal
succeeds with exactly the parsed value; an unspecified timeInForce defaults
to GTC; and end-to-end scenario 2 produces price = 50000, tif = GTC. -/
theorem limit_price_required_and_exact :
    validate_price none OrderType.LIMIT
      = Except.error (VExc.validation VError.priceRequiredForLimit)
  ∧ validate_price (some "") OrderType.LIMIT
      = Except.error (VExc.validation VError.priceRequiredForLimit)
  ∧ (∀ s sg c e, s ≠ "" → parsePyDec (pyStrip s) = some (PyDec.fin sg c e) →
      0 < finVal sg c e →
      validate_price (some s) OrderType.LIMIT = Except.ok (some (PyDec.fin sg c e)))
  ∧ validate_time_in_force none OrderType.LIMIT = Except.ok (some TimeInForce.GTC)
  ∧ validate_order_params "BTCUSDT" "SELL" "LIMIT" "0.001" (some "50000") none none
      = Except.ok
          { symbol := "BTCUSDT", side := OrderSide.SELL, order_type := OrderType.LIMIT,
            quantity := PyDec.fin false 1 (-3), price := some (PyDec.fin false 50000 0),
            stop_price := none, time_in_force := some TimeInForce.GTC } := by
  refine ⟨by decide, by decide, ?_, by decide, by decide⟩
  intro s sg c e hs hp hpos
  simp [validate_price, strOptFalsy, hs, hp, cmpLE0, hpos.not_le]

/-- C5 witness: price "50000" for a LIMIT order is kept exactly. -/
theorem limit_price_required_and_exact_witness :
    parsePyDec (pyStrip "50000") = some (PyDec.fin false 50000 0)
  ∧ (0 : Rat) < finVal false 50000 0
  ∧ validate_price (some "50000") OrderType.LIMIT
      = Except.ok (some (PyDec.fin false 50000 0)) :=
  ⟨by decide, by decide,
   limit_price_required_and_exact.2.2.1 "50000" false 50000 0 (by decide) (by decide)
     (by decide)⟩

/-- C6 counterexample: the empty symbol string does not match the format
regex after normalization, yet validation fails with the distinct
cannot-be-empty message, not the invalid-format one. -/
theorem validate_symbol_empty_counterexample :
    validate_symbol "" = Except.error (VExc.validation VError.symbolEmpty)
  ∧ symbolFormatOk (pyStrip (pyUpper "")) = false
  ∧ vmsg VError.symbolEmpty ≠ vmsg (VError.symbolInvalidFormat (pyStrip (pyUpper ""))) := by
  exact ⟨by decide, by decide, by decide⟩

/-- C6 amended: every NON-EMPTY symbol string failing the `^[A-Z]{5,12}$`
check after uppercasing and stripping fails with the invalid-format error
(the empty string alone fails with the cannot-be-empty error), and every
string passing the check validates to the normalized symbol regardless of its
suffix (the USDT/BUSD check only warns). -/
theorem validate_symbol_format_amended :
    (∀ s, s ≠ "" → symbolFormatOk (pyStrip (pyUpper s)) = false →
      validate_symbol s
        = Except.error (VExc.validation (VError.symbolInvalidFormat (pyStrip (pyUpper s)))))
  ∧ (∀ s, symbolFormatOk (pyStrip (pyUpper s)) = true →
      validate_symbol s = Except.ok (pyStrip (pyUpper s))) := by
  constructor
  · intro s hs hfmt
    simp [validate_symbol, hs, hfmt]
  · intro s hfmt
    have hs : s ≠ "" := by
      intro hempty
      subst hempty
      exact absurd hfmt (by decide)
    simp [validate_symbol, hs, hfmt]

/-- C6 witness: a malformed symbol (digits) gets the invalid-format error;
a well-formed symbol without the USDT/BUSD suffix still succeeds. -/
theorem validate_symbol_format_witness :
    symbolFormatOk (pyStrip (pyUpper "btc12")) = false
  ∧ validate_symbol "btc12"
      = Except.error (VExc.validation (VError.symbolInvalidFormat "BTC12"))
  ∧ symbolFormatOk (pyStrip (pyUpper "ethbtc")) = true
  ∧ validate_symbol "ethbtc" = Except.ok "ETHBTC" :=
  ⟨by decide,
   validate_symbol_format_amended.1 "btc12" (by decide) (by decide),
   by decide,
   validate_symbol_format_amended.2 "ethbtc" (by decide)⟩

/-- C7.  Quantity validation: empty fails; unparseable fails with the
invalid-format error; a value at most 0 (including -Infinity) fails with the
not-positive error; a positive value strictly below Decimal("0.00001") fails
with the too-small error. -/
theorem validate_quantity_cases :
    validate_quantity "" = Except.error (VExc.validation VError.quantityEmpty)
  ∧ (∀ s, s ≠ "" → parsePyDec (pyStrip s) = none →
      validate_quantity s = Except.error (VExc.validation (VError.quantityInvalidFormat s)))
  ∧ (∀ s sg c e, s ≠ "" → parsePyDec (pyStrip s) = some (PyDec.fin sg c e) →
      finVal sg c e ≤ 0 →
      validate_quantity s
        = Except.error (VExc.validation (VError.quantityNotPositive (PyDec.fin sg c e))))
  ∧ (∀ s, s ≠ "" → parsePyDec (pyStrip s) = some (PyDec.inf true) →
      validate_quantity s
        = Except.error (VExc.validation (VError.quantityNotPositive (PyDec.inf true))))
  ∧ (∀ s sg c e, s ≠ "" → parsePyDec (pyStrip s) = some (PyDec.fin sg c e) →
      0 < finVal sg c e → finVal sg c e < finVal false 1 (-5) →
      validate_quantity s
        = Except.error (VExc.validation (VError.quantityTooSmall (PyDec.fin sg c e)))) := by
  refine ⟨by decide, ?_, ?_, ?_, ?_⟩
  · intro s hs hp
    simp [validate_quantity, hs, hp]
  · intro s sg c e hs hp hle
    simp [validate_quantity, hs, hp, cmpLE0, hle]
  · intro s hs hp
    simp [validate_quantity, hs, hp, cmpLE0]
  · intro s sg c e hs hp hpos hsmall
    simp [validate_quantity, hs, hp, cmpLE0, cmpLTmin, hpos.not_le, hsmall]

/-- C7 witness: one concrete input per failure class. -/
theorem validate_quantity_cases_witness :
    validate_quantity "abc" = Except.error (VExc.validation (VError.quantityInvalidFormat "abc"))
  ∧ validate_quantity "-1"
      = Except.error (VExc.validation (VError.quantityNotPositive (PyDec.fin true 1 0)))
  ∧ validate_quantity "0.000009"
      = Except.error (VExc.validation (VError.quantityTooSmall (PyDec.fin false 9 (-6)))) :=
  ⟨validate_quantity_cases.2.1 "abc" (by decide) (by decide),
   validate_quantity_cases.2.2.1 "-1" true 1 0 (by decide) (by decide) (by decide),
   validate_quantity_cases.2.2.2.2 "0.000009" false 9 (-6) (by decide) (by decide) (by decide)
     (by decide)⟩

/-- C8.  validate_order_params short-circuits on the first failure in the
fixed order symbol, side, orderType, quantity, price, stopPrice, timeInForce:
an earlier failure is reported unchanged whatever the later fields hold, and
a later failure is only reported once every earlier field validated. -/
theorem validate_order_params_short_circuit
    (symbol side order_type quantity : String) (price stop_price tif : Option String)
    (e : VExc) :
    (validate_symbol symbol = Except.error e →
      validate_order_params symbol side order_type quantity price stop_price tif
        = Except.error e)
  ∧ (∀ vs, validate_symbol symbol = Except.ok vs →
      validate_side side = Except.error e →
      validate_order_params symbol side order_type quantity price stop_price tif
        = Except.error e)
  ∧ (∀ vs vsd, validate_symbol symbol = Except.ok vs →
      validate_side side = Except.ok vsd →
      validate_order_type order_type = Except.error e →
      validate_order_params symbol side order_type quantity price stop_price tif
        = Except.error e)
  ∧ (∀ vs vsd vt, validate_symbol symbol = Except.ok vs →
      validate_side side = Except.ok vsd →
      validate_order_type order_type = Except.ok vt →
      validate_quantity quantity = Except.error e →
      validate_order_params symbol side order_type quantity price stop_price tif
        = Except.error e)
  ∧ (∀ vs vsd vt vq, validate_symbol symbol = Except.ok vs →
      validate_side side = Except.ok vsd →
      validate_order_type order_type = Except.ok vt →
      validate_quantity quantity = Except.ok vq →
      validate_price price vt = Except.error e →
      validate_order_params symbol side order_type quantity price stop_price tif
        = Except.error e)
  ∧ (∀ vs vsd vt vq vp, validate_symbol symbol = Except.ok vs →
      validate_side side = Except.ok vsd →
      validate_order_type order_type = Except.ok vt →
      validate_quantity quantity = Except.ok vq →
      validate_price price vt = Except.ok vp →
      validate_stop_price stop_price = Except.error e →
      validate_order_params symbol side order_type quantity price stop_price tif
        = Except.error e)
  ∧ (∀ vs vsd vt vq vp vsp, validate_symbol symbol = Except.ok vs →
      validate_side side = Except.ok vsd →
      validate_order_type order_type = Except.ok vt →
      validate_quantity quantity = Except.ok vq →
      validate_price price vt = Except.ok vp →
      validate_stop_price stop_price = Except.ok vsp →
      validate_time_in_force tif vt = Except.error e →
      validate_order_params symbol side order_type quantity price stop_price tif
        = Except.error e) := by
  refine ⟨?_, ?_, ?_, ?_, ?_, ?_, ?_⟩
  · intro h1
    unfold validate_order_params
    rw [h1, except_bind_error]
  · intro vs h1 h2
    unfold validate_order_params
    rw [h1, except_bind_ok, h2, except_bind_error]
  · intro vs vsd h1 h2 h3
    unfold validate_order_params
    rw [h1, except_bind_ok, h2, except_bind_ok, h3, except_bind_error]
  · intro vs vsd vt h1 h2 h3 h4
    unfold validate_order_params
    rw [h1, except_bind_ok, h2, except_bind_ok, h3, except_bind_ok, h4, except_bind_error]
  · intro vs vsd vt vq h1 h2 h3 h4 h5
    unfold validate_order_params
    rw [h1, except_bind_ok, h2, except_bind_ok, h3, except_bind_ok, h4, except_bind_ok, h5,
      except_bind_error]
  · intro vs vsd vt vq vp h1 h2 h3 h4 h5 h6
    unfold validate_order_params
    rw [h1, except_bind_ok, h2, except_bind_ok, h3, except_bind_ok, h4, except_bind_ok, h5,
      except_bind_ok, h6, except_bind_error]
  · intro vs vsd vt vq vp vsp h1 h2 h3 h4 h5 h6 h7
    unfold validate_order_params
    rw [h1, except_bind_ok, h2, except_bind_ok, h3, except_bind_ok, h4, except_bind_ok, h5,
      except_bind_ok, h6, except_bind_ok, h7, except_bind_error]

/-- C8 witness: with an invalid symbol AND an invalid side, the pipeline
reports the symbol error; with a valid symbol, an invalid side AND an invalid
order type, it reports the side error. -/
theorem validate_order_params_short_circuit_witness :
    validate_order_params "bad" "nope" "alsobad" "-1" none none none
      = Except.error (VExc.validation (VError.symbolInvalidFormat "BAD"))
  ∧ validate_order_params "btcusdt" "nope" "alsobad" "-1" none none none
      = Except.error (VExc.validation (VError.sideInvalid "NOPE")) :=
  ⟨(validate_order_params_short_circuit "bad" "nope" "alsobad" "-1" none none none
      (VExc.validation (VError.symbolInvalidFormat "BAD"))).1 (by decide),
   (validate_order_params_short_circuit "btcusdt" "nope" "alsobad" "-1" none none none
      (VExc.validation (VError.sideInvalid "NOPE"))).2.1 "BTCUSDT" (by decide) (by decide)⟩

/-- C10.  The minimum-quantity comparison is strict: any quantity string
parsing to a finite Decimal whose value is exactly 0.00001 validates
successfully, returning that Decimal; in particular "0.00001" itself. -/
theorem validate_quantity_boundary_inclusive :
    (∀ s sg c e, s ≠ "" → parsePyDec (pyStrip s) = some (PyDec.fin sg c e) →
      finVal sg c e = finVal false 1 (-5) →
      validate_quantity s = Except.ok (PyDec.fin sg c e))
  ∧ validate_quantity "0.00001" = Except.ok (PyDec.fin false 1 (-5)) := by
  refine ⟨?_, by decide⟩
  intro s sg c e hs hp hval
  have h1 : ¬(finVal sg c e ≤ 0) := by rw [hval]; decide
  have h2 : ¬(finVal sg c e < finVal false 1 (-5)) := by rw [hval]; exact lt_irrefl _
  simp [validate_quantity, hs, hp, cmpLE0, cmpLTmin, h1, h2]

/-- C10 witness: "1e-5" also denotes exactly 0.00001 and is accepted. -/
theorem validate_quantity_boundary_inclusive_witness :
    parsePyDec (pyStrip "1e-5") = some (PyDec.fin false 1 (-5))
  ∧ validate_quantity "1e-5" = Except.ok (PyDec.fin false 1 (-5)) :=
  ⟨by decide,
   validate_quantity_boundary_inclusive.1 "1e-5" false 1 (-5) (by decide) (by decide) rfl⟩

/-- C1.  place_order is total (always returns an OrderResult) and routes every
outcome: a ValidationError yields a failure with the "Validation error: "
prefix and zero transport calls; the InvalidOperation a NaN quantity raises
is outside the taxonomy and yields "Unexpected error: " with zero transport
calls; after successful validation exactly one transport call is made, a
successful response is mapped to a success result, and each raised exception
is mapped to a failure whose message prefix follows the except-chain, the
catch-all wrapping anything outside the taxonomy as "Unexpected error: ". -/
theorem place_order_total_classification
    (symbol side order_type quantity : String)
    (price stop_price time_in_force : Option String)
    (transport : Except Exc JObj) :
    (∀ v, validate_order_params symbol side order_type quantity price stop_price time_in_force
        = Except.error (VExc.validation v) →
      place_order symbol side order_type quantity price stop_price time_in_force transport
        = (failureResult ("Validation error: " ++ vmsg v), 0))
  ∧ (validate_order_params symbol side order_type quantity price stop_price time_in_force
        = Except.error VExc.invalidOp →
      place_order symbol side order_type quantity price stop_price time_in_force transport
        = (failureResult ("Unexpected error: " ++ excMsg Exc.invalidOperation), 0))
  ∧ (∀ p, validate_order_params symbol side order_type quantity price stop_price time_in_force
        = Except.ok p →
      (∀ response, transport = Except.ok response →
        place_order symbol side order_type quantity price stop_price time_in_force transport
          = (mkSuccessResult response, 1))
    ∧ (∀ e, transport = Except.error e →
        place_order symbol side order_type quantity price stop_price time_in_force transport
          = (excToFailure e, 1)
        ∧ (excToFailure e).success = false
        ∧ (isBinanceAPIError e = true →
            (excToFailure e).error_message = some ("Binance API error: " ++ excMsg e))
        ∧ (isBinanceAPIError e = false → isBinanceClientError e = true →
            (excToFailure e).error_message = some ("Client error: " ++ excMsg e))
        ∧ (isValidationError e = false → isBinanceClientError e = false →
            (excToFailure e).error_message = some ("Unexpected error: " ++ excMsg e))
        ∧ (∀ v, e = Exc.validationError v →
            (excToFailure e).error_message = some ("Validation error: " ++ vmsg v)))) := by
  refine ⟨?_, ?_, ?_⟩
  · intro v hv
    unfold place_order
    rw [hv]
    rfl
  · intro hv
    unfold place_order
    rw [hv]
    rfl
  · intro p hp
    constructor
    · intro response ht
      unfold place_order
      rw [hp, ht]
    · intro e ht
      refine ⟨?_, excToFailure_success_false e, ?_, ?_, ?_, ?_⟩
      · unfold place_order
        rw [hp, ht]
      · intro hapi
        rw [excToFailure_api e hapi]
        rfl
      · intro hapi hcli
        rw [excToFailure_client e hapi hcli]
        rfl
      · intro hval hcli
        rw [excToFailure_unexpected e hval hcli]
        rfl
      · intro v hv
        subst hv
        rfl

/-- C1 witness: end-to-end scenario 3 (quantity "-1"): a failure result with
the validation-error message and zero transport calls, plus the catch-all at
a concrete unclassified exception. -/
theorem place_order_total_classification_witness :
    validate_order_params "BTCUSDT" "BUY" "MARKET" "-1" none none none
      = Except.error (VExc.validation (VError.quantityNotPositive (PyDec.fin true 1 0)))
  ∧ place_order "BTCUSDT" "BUY" "MARKET" "-1" none none none (Except.ok [])
      = (failureResult ("Validation error: Quantity must be positive, got: -1"), 0)
  ∧ (excToFailure (Exc.otherError "boom")).error_message
      = some ("Unexpected error: boom") :=
  ⟨by decide,
   (place_order_total_classification "BTCUSDT" "BUY" "MARKET" "-1" none none none
       (Except.ok [])).1 (VError.quantityNotPositive (PyDec.fin true 1 0)) (by decide),
   ((place_order_total_classification "BTCUSDT" "BUY" "MARKET" "0.001" none none none
       (Except.error (Exc.otherError "boom"))).2.2
     { symbol := "BTCUSDT", side := OrderSide.BUY, order_type := OrderType.MARKET,
       quantity := PyDec.fin false 1 (-3) } (by decide)).2 (Exc.otherError "boom")
     rfl |>.2.2.2.2.1 (by decide) (by decide)⟩

/-- C2 counterexample: an HTTP 500 whose body is not JSON makes
response.json() raise a decode error that _make_request does not classify at
all — it is neither a NetworkError, nor an APIError, nor any
BinanceClientError carrying the raw status, contradicting the claimed
HTTPError classification for 4xx/5xx bodies without the code/msg shape. -/
theorem make_request_nonjson_counterexample :
    make_request "GET"
        (HttpOutcome.response 500 (Except.error "Expecting value: line 1 column 1 (char 0)"))
      = Except.error (Exc.jsonDecodeError "Expecting value: line 1 column 1 (char 0)")
  ∧ isBinanceClientError (Exc.jsonDecodeError "Expecting value: line 1 column 1 (char 0)")
      = false := by
  exact ⟨by decide, by decide⟩

/-- C2 amended: for the three supported methods, a timeout or connectivity
failure is a NetworkError; ANY status ≥ 400 whose body parses as JSON is a
BinanceAPIError carrying the body code and msg when present (code -1 and
"Unknown error" otherwise) together with the raw status — there is no
separate HTTPError class; a status < 400 JSON body is returned unchanged; and
a body that is not valid JSON raises an unclassified decode error that
propagates out of _make_request whatever the status. -/
theorem make_request_classification_amended
    (method m : String) (status : Nat) (data : JObj)
    (hm : method = "GET" ∨ method = "POST" ∨ method = "DELETE") :
    make_request method (HttpOutcome.timeout m)
      = Except.error (Exc.binanceNetworkError ("Request timed out: " ++ m))
  ∧ make_request method (HttpOutcome.connectError m)
      = Except.error (Exc.binanceNetworkError ("Network error: " ++ m))
  ∧ make_request method (HttpOutcome.response status (Except.error m))
      = Except.error (Exc.jsonDecodeError m)
  ∧ (∀ c emsg, 400 ≤ status →
      jGet data "code" = some (JVal.intNum c) → jGet data "msg" = some (JVal.str emsg) →
      make_request method (HttpOutcome.response status (Except.ok data))
        = Except.error (Exc.binanceAPIError
            ("Binance API error: [" ++ toString c ++ "] " ++ emsg)
            (some status) (some (JVal.intNum c))))
  ∧ (400 ≤ status → jGet data "code" = none → jGet data "msg" = none →
      make_request method (HttpOutcome.response status (Except.ok data))
        = Except.error (Exc.binanceAPIError
            ("Binance API error: [-1] Unknown error")
            (some status) (some (JVal.intNum (-1)))))
  ∧ (status < 400 →
      make_request method (HttpOutcome.response status (Except.ok data)) = Except.ok data) := by
  have hmm : (method == "GET" || method == "POST" || method == "DELETE") = true := by
    rcases hm with rfl | rfl | rfl <;> decide
  refine ⟨?_, ?_, ?_, ?_, ?_, ?_⟩
  · simp [make_request, hmm]
  · simp [make_request, hmm]
  · simp [make_request, hmm]
  · intro c emsg hst hc hmsg
    simp [make_request, hmm, hst, hc, hmsg, pyFmt]
  · intro hst hc hmsg
    simp [make_request, hmm, hst, hc, hmsg, pyFmt]
    rfl
  · intro hst
    simp [make_request, hmm, Nat.not_le.mpr hst]

/-- C2 witness: end-to-end scenario 4, HTTP 400 with body
code -2010 / "Insufficient balance". -/
theorem make_request_classification_amended_witness :
    jGet [("code", JVal.intNum (-2010)), ("msg", JVal.str "Insufficient balance")] "code"
      = some (JVal.intNum (-2010))
  ∧ make_request "POST"
        (HttpOutcome.response 400
          (Except.ok [("code", JVal.intNum (-2010)), ("msg", JVal.str "Insufficient balance")]))
      = Except.error (Exc.binanceAPIError
          ("Binance API error: [-2010] Insufficient balance")
          (some 400) (some (JVal.intNum (-2010)))) :=
 by
  refine ⟨by decide, ?_⟩
  exact (make_request_classification_amended "POST" ""
      400 [("code", JVal.intNum (-2010)), ("msg", JVal.str "Insufficient balance")]
      (Or.inr (Or.inl rfl))).2.2.2.1 (-2010) "Insufficient balance" (by decide) (by decide)
    (by decide)

/-- C3 counterexample: with neither identifier supplied, the orders-layer
cancel_order does issue zero transport calls, but the descriptive failure is
a ValueError that PROPAGATES to the caller (the except clause only catches
BinanceClientError), instead of being reported through the
success/error result value. -/
theorem cancel_order_missing_ids_counterexample :
    cancel_order none none (Except.ok [])
      = (Except.error (Exc.valueError "Either order_id or client_order_id must be provided"), 0)
  ∧ isBinanceClientError (Exc.valueError "Either order_id or client_order_id must be provided")
      = false := by
  exact ⟨by decide, by decide⟩

/-- C3 amended: a cancel with neither orderId nor clientOrderId fails fast
with the descriptive ValueError raised by the client before any transport
call (zero transport invocations), but the error escapes cancel_order as an
uncaught exception rather than being reported through the success/error
result value. -/
theorem cancel_order_missing_ids_raises (transport : Except Exc JObj) :
    client_cancel_order none none transport
      = (Except.error (Exc.valueError "Either order_id or client_order_id must be provided"), 0)
  ∧ cancel_order none none transport
      = (Except.error (Exc.valueError "Either order_id or client_order_id must be provided"), 0) :=
  ⟨rfl, rfl⟩

/-- C9.  get_current_price returns None instead of raising on every failure:
any exception from the ticker fetch yields None, and so does a ticker payload
whose price field cannot be converted to a Decimal; totality of the function
models that no exception escapes the surrounding try/except. -/
theorem get_current_price_none_on_failure :
    (∀ e, get_current_price (Except.error e) = none)
  ∧ (∀ ticker, decimalOfJVal ((jGet ticker "price").getD (JVal.str "0")) = none →
      get_current_price (Except.ok ticker) = none) := by
  constructor
  · intro e
    rfl
  · intro ticker h
    simp [get_current_price, h]

/-- C9 witness: a network failure yields None, and so does a null price
field. -/
theorem get_current_price_none_on_failure_witness :
    get_current_price (Except.error (Exc.binanceNetworkError "Network error: boom")) = none
  ∧ decimalOfJVal ((jGet [("price", JVal.null)] "price").getD (JVal.str "0")) = none
  ∧ get_current_price (Except.ok [("price", JVal.null)]) = none :=
  ⟨get_current_price_none_on_failure.1 (Exc.binanceNetworkError "Network error: boom"),
   by decide,
   get_current_price_none_on_failure.2 [("price", JVal.null)] (by decide)⟩
